import Mathlib

/-!
# Verification of the Sentinela alarm controller (src/sentinela.cpp)

Shallow embedding of the state-machine core of the Sentinela ESP32 alarm
firmware: the global flags `sistemaAtivo` / `alarmeDisparado`, the relay pin
that drives the siren, the command handlers `armarSistema`, `desarmarSistema`,
`dispararAlarme`, `handleRF`, `handleNewMessage`, the motion check in `loop`,
the debounce logic in `checarBotao`, and the rate-limit gates in
`checarTelegram` and `checarWiFi`.

Pin levels are modelled as `Bool` with HIGH = `true` and LOW = `false`.
`millis()` values are modelled as `Nat`; where the C++ code performs
unsigned 32-bit subtraction on them, the embedding uses an explicit
wrap-around formula modulo `2 ^ 32`.  Side effects (digitalWrite on the
relay pin, `bot.sendMessage`, `logEvento`, `enviarLogsTelegram`) are
reified as an `Effect` list returned by each handler; the relay pin level
is additionally tracked in the state so that actuator/flag invariants can
be stated.
-/

/-- The mutable global state of the firmware that the alarm logic touches:
`sistemaAtivo` (armed flag), `alarmeDisparado` (triggered flag), and the
level currently driven on `RELAY_PIN` (HIGH = siren on). -/
structure SentinelaState where
  sistemaAtivo : Bool
  alarmeDisparado : Bool
  relayPin : Bool
  deriving DecidableEq, Repr

/-- Reified side effects of the handlers.  `digitalWriteRelay` is a
`digitalWrite(RELAY_PIN, _)` call (HIGH = ActivateSiren, LOW =
DeactivateSiren), `sendMessage` is `bot.sendMessage(CHAT_ID, _)`,
`logEvento` appends a log line, and `enviarLogs` abstracts the
`enviarLogsTelegram()` call (whose internals are file I/O, out of the
state-machine core). -/
inductive Effect where
  | digitalWriteRelay (high : Bool)
  | sendMessage (text : String)
  | logEvento (text : String)
  | enviarLogs
  deriving DecidableEq, Repr

/-- RF code that arms the system (`CODE_ARM` in the source). -/
def CODE_ARM : Nat := 1234567

/-- RF code that disarms the system (`CODE_DISARM` in the source). -/
def CODE_DISARM : Nat := 7654321

/-- Telegram poll interval in ms (`msgInterval` in the source). -/
def msgInterval : Nat := 3000

/-- Wi-Fi check interval in ms (`wifiCheckInterval` in the source). -/
def wifiCheckInterval : Nat := 10000

/-- Button debounce window in ms (`debounceDelay` in `checarBotao`). -/
def debounceDelay : Nat := 50

/-- `2 ^ 32`, the modulus of `unsigned long` arithmetic on the ESP32. -/
def UINT32 : Nat := 2 ^ 32

/-- Unsigned 32-bit subtraction `a - b` as the C++ code computes it on
`millis()` values (both operands assumed `< 2 ^ 32`). -/
def usub (a b : Nat) : Nat := (a + UINT32 - b) % UINT32

/-- State after `setup()`: both flags start at their initializers `false`
and `digitalWrite(RELAY_PIN, LOW)` drives the relay LOW. -/
def setupState : SentinelaState := ⟨false, false, false⟩

/-- `dispararAlarme()`: drive the relay HIGH, set `alarmeDisparado`,
notify the chat and log. -/
def dispararAlarme (s : SentinelaState) : SentinelaState × List Effect :=
  ({ s with relayPin := true, alarmeDisparado := true },
   [.digitalWriteRelay true,
    .sendMessage "⚠️ ALERTA! Movimento detectado! Sirene disparada!",
    .logEvento "Alarme efetivamente disparado (sirene + notificação)."])

/-- `desarmarSistema(origem)`: unconditionally drive the relay LOW, clear
both flags, send the success notification and log it. -/
def desarmarSistema (origem : String) (s : SentinelaState) :
    SentinelaState × List Effect :=
  let msg := "✅ Sistema DESARMADO com sucesso pela origem: " ++ origem
  ({ s with relayPin := false, alarmeDisparado := false, sistemaAtivo := false },
   [.digitalWriteRelay false, .sendMessage msg, .logEvento msg])

/-- `armarSistema(origem)`: if not already armed, set `sistemaAtivo`,
reset `alarmeDisparado`, notify and log; otherwise only send the
informational "already armed" message. -/
def armarSistema (origem : String) (s : SentinelaState) :
    SentinelaState × List Effect :=
  if !s.sistemaAtivo then
    let msg := "🔒 Sistema ARMADO com sucesso pela origem: " ++ origem
    ({ s with sistemaAtivo := true, alarmeDisparado := false },
     [.sendMessage msg, .logEvento msg])
  else
    (s, [.sendMessage "ℹ️ O sistema já se encontra armado."])

/-- The motion branch of `loop()`: if the system is armed, not yet
triggered, and the PIR pin reads HIGH, log and call `dispararAlarme`. -/
def motionStep (pir : Bool) (s : SentinelaState) : SentinelaState × List Effect :=
  if s.sistemaAtivo && !s.alarmeDisparado && pir then
    let r := dispararAlarme s
    (r.1, .logEvento "Movimento detectado, disparando alarme" :: r.2)
  else
    (s, [])

/-- `handleRF(code)`: the known ARM code arms, the known DISARM code
disarms, any other code is only logged. -/
def handleRF (code : Nat) (s : SentinelaState) : SentinelaState × List Effect :=
  if code = CODE_ARM then
    armarSistema "Controle RF" s
  else if code = CODE_DISARM then
    desarmarSistema "Controle RF" s
  else
    (s, [.logEvento ("Código RF desconhecido recebido: " ++ toString code)])

/-- `handleNewMessage(msg)`: dispatch on the Telegram command text. -/
def handleNewMessage (text : String) (s : SentinelaState) :
    SentinelaState × List Effect :=
  if text = "/armar" then
    armarSistema "Telegram" s
  else if text = "/desarmar" then
    desarmarSistema "Telegram" s
  else if text = "/status" then
    let status := if s.sistemaAtivo then "ARMADO" else "DESARMADO"
    let alarme := if s.alarmeDisparado then "SIM" else "NÃO"
    (s, [.sendMessage ("📊 *Status do Sentinela*\n\n*Sistema:* " ++ status ++
          "\n*Sirene Disparada:* " ++ alarme)])
  else if text = "/logs" then
    (s, [.enviarLogs])
  else
    (s, [.sendMessage "Comando não reconhecido. Use /armar, /desarmar, /status ou /logs."])

/-- The toggle branch of `checarBotao`: a recognized press disarms when
armed and arms otherwise, with origin "Botão físico". -/
def botaoToggle (s : SentinelaState) : SentinelaState × List Effect :=
  if s.sistemaAtivo then
    desarmarSistema "Botão físico" s
  else
    armarSistema "Botão físico" s

/-- The `static` locals of `checarBotao`: the previous raw reading and
the `millis()` value of the last observed level change. -/
structure BotaoState where
  ultimoEstado : Bool
  ultimoDebounce : Nat
  deriving DecidableEq, Repr

/-- Initial values of the `static` locals of `checarBotao`:
`ultimoEstado = HIGH`, `ultimoDebounce = 0`. -/
def botaoInit : BotaoState := ⟨true, 0⟩

/-- One call to `checarBotao()`.  `leitura` is the raw `digitalRead` of the
button pin, `now1` is the `millis()` read that resets `ultimoDebounce` on a
level change, `now2` the `millis()` read in the debounce-window test two
lines later (in the firmware the two reads happen within the same loop
iteration, microseconds apart). -/
def checarBotao (leitura : Bool) (now1 now2 : Nat) (b : BotaoState)
    (s : SentinelaState) : BotaoState × SentinelaState × List Effect :=
  let ultimoDebounce := if leitura ≠ b.ultimoEstado then now1 else b.ultimoDebounce
  let r :=
    if usub now2 ultimoDebounce > debounceDelay then
      if leitura = false ∧ b.ultimoEstado = true then
        botaoToggle s
      else
        (s, [])
    else
      (s, [])
  (⟨leitura, ultimoDebounce⟩, r)

/-- Events that reach the alarm state machine: a Telegram message text, a
decoded RF code, a (debounced) button press, or one motion-sensor poll of
`loop()`. -/
inductive Event where
  | telegramMsg (text : String)
  | rfCode (code : Nat)
  | buttonPress
  | motion (pir : Bool)

/-- Apply one event to the system state. -/
def step (e : Event) (s : SentinelaState) : SentinelaState × List Effect :=
  match e with
  | .telegramMsg text => handleNewMessage text s
  | .rfCode code => handleRF code s
  | .buttonPress => botaoToggle s
  | .motion pir => motionStep pir s

/-- Apply a sequence of events, accumulating all effects in order. -/
def run (es : List Event) (s : SentinelaState) : SentinelaState × List Effect :=
  match es with
  | [] => (s, [])
  | e :: rest =>
    let r := step e s
    let r2 := run rest r.1
    (r2.1, r.2 ++ r2.2)

/-- A sequence of motion-sensor polls (one `loop()` PIR check each). -/
def runMotions (pirs : List Bool) (s : SentinelaState) :
    SentinelaState × List Effect :=
  run (pirs.map Event.motion) s

/-- Recognizes the ActivateSiren effect `digitalWrite(RELAY_PIN, HIGH)`. -/
def isActivateSiren : Effect → Bool
  | .digitalWriteRelay true => true
  | _ => false

/-- Recognizes the motion-alert chat notification sent by `dispararAlarme`. -/
def isMotionAlert : Effect → Bool
  | .sendMessage t => t = "⚠️ ALERTA! Movimento detectado! Sirene disparada!"
  | _ => false

/-- Recognizes any write to the relay pin (siren actuation effect). -/
def isRelayWrite : Effect → Bool
  | .digitalWriteRelay _ => true
  | _ => false

/-- The siren actuations contained in an effect list, in order. -/
def sirenWrites (fx : List Effect) : List Effect := fx.filter isRelayWrite

/-- The combined inductive invariant of the controller: the relay level
always equals the triggered flag, and the triggered flag implies the armed
flag. -/
def SentinelaInv (s : SentinelaState) : Prop :=
  s.relayPin = s.alarmeDisparado ∧ (s.alarmeDisparado = true → s.sistemaAtivo = true)

theorem sentinelaInv_setup : SentinelaInv setupState := by
  simp [SentinelaInv, setupState]

theorem sentinelaInv_armarSistema (origem : String) (s : SentinelaState) (h : SentinelaInv s) :
    SentinelaInv (armarSistema origem s).1 := by
  obtain ⟨a, t, r⟩ := s
  obtain ⟨h1, h2⟩ := h
  cases a <;> cases t <;> cases r <;>
    simp_all [armarSistema, SentinelaInv]

theorem sentinelaInv_desarmarSistema (origem : String) (s : SentinelaState) :
    SentinelaInv (desarmarSistema origem s).1 := by
  simp [desarmarSistema, SentinelaInv]

theorem sentinelaInv_motionStep (pir : Bool) (s : SentinelaState) (h : SentinelaInv s) :
    SentinelaInv (motionStep pir s).1 := by
  obtain ⟨a, t, r⟩ := s
  obtain ⟨h1, h2⟩ := h
  cases a <;> cases t <;> cases r <;> cases pir <;>
    simp_all [motionStep, dispararAlarme, SentinelaInv]

theorem sentinelaInv_botaoToggle (s : SentinelaState) (h : SentinelaInv s) :
    SentinelaInv (botaoToggle s).1 := by
  unfold botaoToggle
  split
  · exact sentinelaInv_desarmarSistema _ _
  · exact sentinelaInv_armarSistema _ _ h

theorem sentinelaInv_handleNewMessage (text : String) (s : SentinelaState)
    (h : SentinelaInv s) : SentinelaInv (handleNewMessage text s).1 := by
  unfold handleNewMessage
  split
  · exact sentinelaInv_armarSistema _ _ h
  split
  · exact sentinelaInv_desarmarSistema _ _
  split
  · exact h
  split
  · exact h
  · exact h

theorem sentinelaInv_handleRF (code : Nat) (s : SentinelaState)
    (h : SentinelaInv s) : SentinelaInv (handleRF code s).1 := by
  unfold handleRF
  split
  · exact sentinelaInv_armarSistema _ _ h
  split
  · exact sentinelaInv_desarmarSistema _ _
  · exact h

theorem sentinelaInv_step (e : Event) (s : SentinelaState) (h : SentinelaInv s) :
    SentinelaInv (step e s).1 := by
  cases e with
  | telegramMsg text => exact sentinelaInv_handleNewMessage text s h
  | rfCode code => exact sentinelaInv_handleRF code s h
  | buttonPress => exact sentinelaInv_botaoToggle s h
  | motion pir => exact sentinelaInv_motionStep pir s h

theorem sentinelaInv_run (es : List Event) (s : SentinelaState) (h : SentinelaInv s) :
    SentinelaInv (run es s).1 := by
  induction es generalizing s with
  | nil => exact h
  | cons e rest ih =>
    unfold run
    exact ih _ (sentinelaInv_step e s h)

/-- The rate-limit gate of `checarTelegram()`: the body runs only when
`millis() - lastMsgTime > msgInterval` and Wi-Fi is connected, after which
`lastMsgTime` is set back to `millis()`.  Returns (fired, new `lastMsgTime`). -/
def checarTelegramGate (wifiConnected : Bool) (now lastMsgTime : Nat) : Bool × Nat :=
  if usub now lastMsgTime > msgInterval ∧ wifiConnected = true then
    (true, now)
  else
    (false, lastMsgTime)

/-- The rate-limit gate of `checarWiFi()`: the body runs only when
`millis() - lastWiFiCheck > wifiCheckInterval`, and then `lastWiFiCheck`
is set to `millis()`.  Returns (fired, new `lastWiFiCheck`). -/
def checarWiFiGate (now lastWiFiCheck : Nat) : Bool × Nat :=
  if usub now lastWiFiCheck > wifiCheckInterval then
    (true, now)
  else
    (false, lastWiFiCheck)

/-- Recognizes the DeactivateSiren effect `digitalWrite(RELAY_PIN, LOW)`. -/
def isDeactivateSiren : Effect → Bool
  | .digitalWriteRelay false => true
  | _ => false

/-- Recognizes the disarm success notification sent by `desarmarSistema`
with origin "Telegram". -/
def isDisarmSuccessNotify : Effect → Bool
  | .sendMessage t => t == "✅ Sistema DESARMADO com sucesso pela origem: Telegram"
  | _ => false

theorem usub_sub (a b : Nat) (h : b ≤ a) (ha : a < UINT32) : usub a b = a - b := by
  unfold UINT32 at ha
  unfold usub UINT32
  have h32 : (2 : Nat) ^ 32 = 4294967296 := by norm_num
  rw [h32] at ha ⊢
  omega

/-- C1: For every sequence of commands and motion events applied from the
initial state, `alarmeDisparado = true` implies `sistemaAtivo = true` at
every point: every operation that clears the armed flag also clears the
triggered flag, and the triggered flag is only set while armed. -/
theorem triggered_implies_armed (es : List Event)
    (h : (run es setupState).1.alarmeDisparado = true) :
    (run es setupState).1.sistemaAtivo = true :=
  (sentinelaInv_run es setupState sentinelaInv_setup).2 h

theorem triggered_implies_armed_witness :
    (run [Event.rfCode 1234567, Event.motion true] setupState).1.alarmeDisparado = true ∧
    (run [Event.rfCode 1234567, Event.motion true] setupState).1.sistemaAtivo = true :=
  ⟨by decide, triggered_implies_armed [Event.rfCode 1234567, Event.motion true] (by decide)⟩

/-- C10: At every reachable state, the level driven on the siren relay pin
equals the `alarmeDisparado` (triggered) flag: initialization starts both
off, `dispararAlarme` sets both, `desarmarSistema` clears both, and
`armarSistema` from Disarmed clears the flag while the relay is already
LOW. -/
theorem relay_tracks_triggered (es : List Event) :
    (run es setupState).1.relayPin = (run es setupState).1.alarmeDisparado :=
  (sentinelaInv_run es setupState sentinelaInv_setup).1

/-- C5: `desarmarSistema` from any armed (Armed or Triggered) state drives
the relay LOW exactly once, sends exactly the "disarmed by {source}"
success notification and a log line, and moves to Disarmed with both flags
false. -/
theorem desarmar_from_armed (origem : String) (s : SentinelaState)
    (h : s.sistemaAtivo = true) :
    (desarmarSistema origem s).1 = ⟨false, false, false⟩ ∧
    (desarmarSistema origem s).2 =
      [Effect.digitalWriteRelay false,
       Effect.sendMessage ("✅ Sistema DESARMADO com sucesso pela origem: " ++ origem),
       Effect.logEvento ("✅ Sistema DESARMADO com sucesso pela origem: " ++ origem)] ∧
    ((desarmarSistema origem s).2.countP isDeactivateSiren) = 1 := by
  refine ⟨rfl, rfl, ?_⟩
  simp [desarmarSistema, List.countP_cons, isDeactivateSiren]

theorem desarmar_from_armed_witness :
    (⟨true, true, true⟩ : SentinelaState).sistemaAtivo = true ∧
    ((desarmarSistema "Telegram" ⟨true, true, true⟩).1 = ⟨false, false, false⟩ ∧
     (desarmarSistema "Telegram" ⟨true, true, true⟩).2 =
       [Effect.digitalWriteRelay false,
        Effect.sendMessage ("✅ Sistema DESARMADO com sucesso pela origem: " ++ "Telegram"),
        Effect.logEvento ("✅ Sistema DESARMADO com sucesso pela origem: " ++ "Telegram")] ∧
     ((desarmarSistema "Telegram" ⟨true, true, true⟩).2.countP isDeactivateSiren) = 1) :=
  ⟨rfl, desarmar_from_armed "Telegram" ⟨true, true, true⟩ rfl⟩

/-- C6: `armarSistema` while already armed leaves the state (all flags and
the relay) unchanged and produces exactly one informational "already
armed" notification: no relay write, no log line, no "armed" success
notification. -/
theorem armar_when_already_armed (origem : String) (s : SentinelaState)
    (h : s.sistemaAtivo = true) :
    armarSistema origem s = (s, [Effect.sendMessage "ℹ️ O sistema já se encontra armado."]) ∧
    sirenWrites (armarSistema origem s).2 = [] := by
  constructor
  · simp [armarSistema, h]
  · simp [armarSistema, h, sirenWrites, List.filter, isRelayWrite]

theorem armar_when_already_armed_witness :
    (⟨true, false, false⟩ : SentinelaState).sistemaAtivo = true ∧
    (armarSistema "Controle RF" ⟨true, false, false⟩ =
       (⟨true, false, false⟩, [Effect.sendMessage "ℹ️ O sistema já se encontra armado."]) ∧
     sirenWrites (armarSistema "Controle RF" ⟨true, false, false⟩).2 = []) :=
  ⟨rfl, armar_when_already_armed "Controle RF" ⟨true, false, false⟩ rfl⟩

/-- C8: `handleRF` on a code that is neither `CODE_ARM` nor `CODE_DISARM`
leaves the state (armed flag, triggered flag, relay) unchanged and
produces exactly one log line recording the unknown code — in particular
no chat notification. -/
theorem handleRF_unknown_code (code : Nat) (s : SentinelaState)
    (h1 : code ≠ CODE_ARM) (h2 : code ≠ CODE_DISARM) :
    handleRF code s =
      (s, [Effect.logEvento ("Código RF desconhecido recebido: " ++ toString code)]) := by
  simp [handleRF, h1, h2]

theorem handleRF_unknown_code_witness :
    (42 : Nat) ≠ CODE_ARM ∧ (42 : Nat) ≠ CODE_DISARM ∧
    handleRF 42 setupState =
      (setupState, [Effect.logEvento ("Código RF desconhecido recebido: " ++ toString (42 : Nat))]) :=
  ⟨by decide, by decide, handleRF_unknown_code 42 setupState (by decide) (by decide)⟩

/-- C9: the `origem` tag passed to `armarSistema` / `desarmarSistema`
influences only notification/log text: from the same state, two commands
that differ only in their source reach the same armed/triggered/relay
state and produce the same relay (siren) writes. -/
theorem command_source_independent (origem1 origem2 : String) (s : SentinelaState) :
    (armarSistema origem1 s).1 = (armarSistema origem2 s).1 ∧
    sirenWrites (armarSistema origem1 s).2 = sirenWrites (armarSistema origem2 s).2 ∧
    (desarmarSistema origem1 s).1 = (desarmarSistema origem2 s).1 ∧
    sirenWrites (desarmarSistema origem1 s).2 = sirenWrites (desarmarSistema origem2 s).2 := by
  refine ⟨?_, ?_, rfl, rfl⟩ <;>
    by_cases h : s.sistemaAtivo <;>
      simp [armarSistema, h, sirenWrites, List.filter, isRelayWrite]

/-- C3 counterexample: a Disarm received while already Disarmed is NOT a
no-op with at most a single idempotent acknowledgment — `desarmarSistema`
runs unconditionally, so `/desarmar` from the initial (Disarmed) state
produces the full "disarmed by {source}" success notification and log
line, and two consecutive `/desarmar` commands from Disarmed produce the
success notification twice (a duplicate). -/
theorem disarm_while_disarmed_duplicates :
    (handleNewMessage "/desarmar" setupState).2 =
      [Effect.digitalWriteRelay false,
       Effect.sendMessage "✅ Sistema DESARMADO com sucesso pela origem: Telegram",
       Effect.logEvento "✅ Sistema DESARMADO com sucesso pela origem: Telegram"] ∧
    ((run [Event.telegramMsg "/desarmar", Event.telegramMsg "/desarmar"] setupState).2.countP
       isDisarmSuccessNotify) = 2 := by
  constructor
  · rfl
  · rfl

/-- C3 amended: a Disarm received while already Disarmed keeps the system
Disarmed, but the code's consistent policy is the full acknowledgment: it
always drives the relay LOW and emits the "disarmed by {source}" success
notification plus a disarm log line, so repeated Disarm duplicates them. -/
theorem disarm_while_disarmed_full_ack (origem : String) (s : SentinelaState)
    (h : s.sistemaAtivo = false) :
    (desarmarSistema origem s).1 = ⟨false, false, false⟩ ∧
    (desarmarSistema origem s).2 =
      [Effect.digitalWriteRelay false,
       Effect.sendMessage ("✅ Sistema DESARMADO com sucesso pela origem: " ++ origem),
       Effect.logEvento ("✅ Sistema DESARMADO com sucesso pela origem: " ++ origem)] :=
  ⟨rfl, rfl⟩

theorem disarm_while_disarmed_full_ack_witness :
    setupState.sistemaAtivo = false ∧
    ((desarmarSistema "Controle RF" setupState).1 = ⟨false, false, false⟩ ∧
     (desarmarSistema "Controle RF" setupState).2 =
       [Effect.digitalWriteRelay false,
        Effect.sendMessage ("✅ Sistema DESARMADO com sucesso pela origem: " ++ "Controle RF"),
        Effect.logEvento ("✅ Sistema DESARMADO com sucesso pela origem: " ++ "Controle RF")]) :=
  ⟨rfl, disarm_while_disarmed_full_ack "Controle RF" setupState rfl⟩

/-- C2 (refuting the debounce claim): `checarBotao` can never emit the
toggle.  The press branch requires `leitura = LOW ∧ ultimoEstado = HIGH`,
i.e. the raw level changed in this very iteration — but that same change
just reset `ultimoDebounce` to the current `millis()`, so the window test
`millis() - ultimoDebounce > debounceDelay` fails (the two `millis()`
reads of one iteration are at most the debounce window apart); and when
the level did not change the press branch is vacuous.  Hence a stable
HIGH-to-LOW press never arms or disarms the system. -/
theorem checarBotao_never_toggles (leitura : Bool) (now1 now2 : Nat)
    (b : BotaoState) (s : SentinelaState)
    (h12 : now1 ≤ now2) (hclose : now2 - now1 ≤ debounceDelay) (h2 : now2 < UINT32) :
    (checarBotao leitura now1 now2 b s).2 = (s, []) := by
  unfold checarBotao
  by_cases he : leitura = b.ultimoEstado
  · have hpress : ¬(leitura = false ∧ b.ultimoEstado = true) := by
      rintro ⟨hf, ht⟩
      rw [he, ht] at hf
      exact Bool.noConfusion hf
    simp only [he, ne_eq, not_true_eq_false, if_false, ite_not]
    split <;> simp [hpress]
  · have hu : usub now2 now1 = now2 - now1 := usub_sub _ _ h12 h2
    have hng : ¬ usub now2 now1 > debounceDelay := by
      rw [hu]
      unfold debounceDelay at hclose ⊢
      omega
    simp [he, hng]

theorem checarBotao_never_toggles_witness :
    (1000 : Nat) ≤ 1000 ∧ (1000 : Nat) - 1000 ≤ debounceDelay ∧ (1000 : Nat) < UINT32 ∧
    (checarBotao false 1000 1000 botaoInit setupState).2 = (setupState, []) :=
  ⟨by decide, by decide, by decide,
   checarBotao_never_toggles false 1000 1000 botaoInit setupState
     (by decide) (by decide) (by decide)⟩

/-- C7: neither poll gate reports "due" twice within its interval of its
own previous firing.  If the Telegram gate fired at `now1`, a second check
at `now2` within `msgInterval` does not fire and leaves the stored time at
`now1`, while a check after more than `msgInterval` fires; likewise for
the Wi-Fi gate with `wifiCheckInterval`. -/
theorem pollgate_no_double_fire (last now1 now2 : Nat)
    (h12 : now1 ≤ now2) (h2 : now2 < UINT32) :
    ((checarTelegramGate true now1 last).1 = true →
      (now2 - now1 ≤ msgInterval →
        checarTelegramGate true now2 (checarTelegramGate true now1 last).2 = (false, now1)) ∧
      (msgInterval < now2 - now1 →
        (checarTelegramGate true now2 (checarTelegramGate true now1 last).2).1 = true)) ∧
    ((checarWiFiGate now1 last).1 = true →
      (now2 - now1 ≤ wifiCheckInterval →
        checarWiFiGate now2 (checarWiFiGate now1 last).2 = (false, now1)) ∧
      (wifiCheckInterval < now2 - now1 →
        (checarWiFiGate now2 (checarWiFiGate now1 last).2).1 = true)) := by
  have hu : usub now2 now1 = now2 - now1 := usub_sub _ _ h12 h2
  constructor
  · intro hf
    have hsnd : (checarTelegramGate true now1 last).2 = now1 := by
      by_cases hc : usub now1 last > msgInterval
      · simp [checarTelegramGate, hc]
      · exfalso
        simp [checarTelegramGate, hc] at hf
    rw [hsnd]
    constructor
    · intro hle
      have hng : ¬ usub now2 now1 > msgInterval := by rw [hu]; omega
      simp [checarTelegramGate, hng]
    · intro hgt
      have hg : usub now2 now1 > msgInterval := by rw [hu]; omega
      simp [checarTelegramGate, hg]
  · intro hf
    have hsnd : (checarWiFiGate now1 last).2 = now1 := by
      by_cases hc : usub now1 last > wifiCheckInterval
      · simp [checarWiFiGate, hc]
      · exfalso
        simp [checarWiFiGate, hc] at hf
    rw [hsnd]
    constructor
    · intro hle
      have hng : ¬ usub now2 now1 > wifiCheckInterval := by rw [hu]; omega
      simp [checarWiFiGate, hng]
    · intro hgt
      have hg : usub now2 now1 > wifiCheckInterval := by rw [hu]; omega
      simp [checarWiFiGate, hg]

theorem pollgate_no_double_fire_witness :
    (20000 : Nat) ≤ 20500 ∧ (20500 : Nat) < UINT32 ∧
    (((checarTelegramGate true 20000 0).1 = true →
       ((20500 : Nat) - 20000 ≤ msgInterval →
         checarTelegramGate true 20500 (checarTelegramGate true 20000 0).2 = (false, 20000)) ∧
       (msgInterval < (20500 : Nat) - 20000 →
         (checarTelegramGate true 20500 (checarTelegramGate true 20000 0).2).1 = true)) ∧
     ((checarWiFiGate 20000 0).1 = true →
       ((20500 : Nat) - 20000 ≤ wifiCheckInterval →
         checarWiFiGate 20500 (checarWiFiGate 20000 0).2 = (false, 20000)) ∧
       (wifiCheckInterval < (20500 : Nat) - 20000 →
         (checarWiFiGate 20500 (checarWiFiGate 20000 0).2).1 = true))) :=
  ⟨by decide, by decide, pollgate_no_double_fire 0 20000 20500 (by decide) (by decide)⟩

/-- C4: across any sequence of motion polls, the number of ActivateSiren
effects (and of motion-alert notifications) is 1 exactly when the start
state is Armed and not Triggered and some poll sees motion, and 0
otherwise: motion while Disarmed never activates the siren, and repeated
motion while Triggered adds nothing — one activation and one notification
per Triggered episode. -/
theorem motion_siren_iff (s : SentinelaState) (pirs : List Bool) :
    (runMotions pirs s).2.countP isActivateSiren =
      (if s.sistemaAtivo && !s.alarmeDisparado && pirs.any id then 1 else 0) ∧
    (runMotions pirs s).2.countP isMotionAlert =
      (if s.sistemaAtivo && !s.alarmeDisparado && pirs.any id then 1 else 0) := by
  induction pirs generalizing s with
  | nil => simp [runMotions, run]
  | cons p ps ih =>
    obtain ⟨a, t, r⟩ := s
    cases a <;> cases t <;> cases p <;>
      simp_all [runMotions, run, step, motionStep, dispararAlarme,
        List.countP_append, List.countP_cons, isActivateSiren, isMotionAlert]
